import Mathlib

/-!
Verification of the N-body / eclipse computational core of the
orbits-of-earth-and-moon repository.

The C++ core is shallowly embedded over exact rational arithmetic:
`double` becomes `ℚ`, and the one operation with no rational counterpart,
`std::sqrt`, is threaded through every definition as an explicit
square-root oracle `sq : ℚ → ℚ`.  Theorems that depend on genuine
square-root behaviour state the property of `sq` they need as a
hypothesis; theorems of pure algebraic structure hold for every oracle.
-/

/-- Embedding of the `vec3` class (vec3.h): three double components. -/
structure vec3 where
  x : ℚ
  y : ℚ
  z : ℚ
deriving DecidableEq, Repr

instance : Add vec3 := ⟨fun u v => ⟨u.x + v.x, u.y + v.y, u.z + v.z⟩⟩

instance : Sub vec3 := ⟨fun u v => ⟨u.x - v.x, u.y - v.y, u.z - v.z⟩⟩

instance : Neg vec3 := ⟨fun v => ⟨-v.x, -v.y, -v.z⟩⟩

instance : SMul ℚ vec3 := ⟨fun t v => ⟨t * v.x, t * v.y, t * v.z⟩⟩

instance : Zero vec3 := ⟨⟨0, 0, 0⟩⟩

instance : AddCommMonoid vec3 where
  add_assoc := by
    rintro ⟨px, py, pz⟩ ⟨qx, qy, qz⟩ ⟨rx, ry, rz⟩
    show vec3.mk (px + qx + rx) (py + qy + ry) (pz + qz + rz)
        = vec3.mk (px + (qx + rx)) (py + (qy + ry)) (pz + (qz + rz))
    rw [add_assoc, add_assoc, add_assoc]
  zero_add := by
    rintro ⟨px, py, pz⟩
    show vec3.mk (0 + px) (0 + py) (0 + pz) = vec3.mk px py pz
    rw [zero_add, zero_add, zero_add]
  add_zero := by
    rintro ⟨px, py, pz⟩
    show vec3.mk (px + 0) (py + 0) (pz + 0) = vec3.mk px py pz
    rw [add_zero, add_zero, add_zero]
  add_comm := by
    rintro ⟨px, py, pz⟩ ⟨qx, qy, qz⟩
    show vec3.mk (px + qx) (py + qy) (pz + qz)
        = vec3.mk (qx + px) (qy + py) (qz + pz)
    rw [add_comm px qx, add_comm py qy, add_comm pz qz]
  nsmul := nsmulRec

/-- `vec3::length_squared()`: e0*e0 + e1*e1 + e2*e2. -/
def vec3.length_squared (v : vec3) : ℚ := v.x * v.x + v.y * v.y + v.z * v.z

/-- `vec3::length()`: sqrt of the squared length, via the oracle `sq`. -/
def vec3.length (sq : ℚ → ℚ) (v : vec3) : ℚ := sq v.length_squared

/-- `dot(u, v)` from vec3.h. -/
def dot (u v : vec3) : ℚ := u.x * v.x + u.y * v.y + u.z * v.z

/-- `cross(u, v)` from vec3.h. -/
def cross (u v : vec3) : vec3 :=
  ⟨u.y * v.z - u.z * v.y, u.z * v.x - u.x * v.z, u.x * v.y - u.y * v.x⟩

/-- `unit_vector(v)` from vec3.h: `v / v.length()`, i.e. `(1/len) * v`. -/
def unit_vector (sq : ℚ → ℚ) (v : vec3) : vec3 :=
  (1 / vec3.length sq v) • v

namespace constants

/-- `constants::G = 6.67430e-11` (utils.h), exactly. -/
def G : ℚ := 66743 / 10 ^ 15

/-- `constants::DT = 3600` (utils.h). -/
def DT : ℚ := 3600

/-- `constants::M_SUN = 1.9891e30` (utils.h), exactly. -/
def M_SUN : ℚ := 19891 * 10 ^ 26

/-- `constants::M_EARTH = 5.972e24` (utils.h), exactly. -/
def M_EARTH : ℚ := 5972 * 10 ^ 21

/-- `constants::M_MOON = 7.3477e22` (utils.h), exactly. -/
def M_MOON : ℚ := 73477 * 10 ^ 18

/-- `constants::R_SUN = 6.957e8` (utils.h), exactly. -/
def R_SUN : ℚ := 6957 * 10 ^ 5

/-- `constants::R_EARTH = 6.371e6` (utils.h), exactly. -/
def R_EARTH : ℚ := 6371 * 10 ^ 3

/-- `constants::R_MOON = 1.737e6` (utils.h), exactly. -/
def R_MOON : ℚ := 1737 * 10 ^ 3

end constants

/-- Embedding of `struct CelestialBody` (body.h, 3D revision). -/
structure CelestialBody where
  name : String
  mass : ℚ
  position : vec3
  velocity : vec3
  acceleration : vec3
deriving DecidableEq, Repr

/-- A throw-away body used only for out-of-range `List.getD` reads. -/
def dummyBody : CelestialBody := ⟨"", 0, 0, 0, 0⟩

/-!  ## Gravitational force model (simulation.cpp)  -/

/-- Embedding of `computeGravitationalForce` (simulation.cpp:104-128).
Returns the updated pair `(a, b)`; the C++ mutates both references. -/
def computeGravitationalForce (sq : ℚ → ℚ) (a b : CelestialBody) :
    CelestialBody × CelestialBody :=
  let r_vec := b.position - a.position
  let r2 := r_vec.length_squared
  if r2 < 1 then
    (a, b)
  else
    let r := sq r2
    let invr := 1 / r
    let invr3 := invr / r2
    let acc_dir := r_vec
    let acc_a := (constants.G * b.mass * invr3) • acc_dir
    let acc_b := (constants.G * a.mass * invr3) • (-acc_dir)
    ({ a with acceleration := a.acceleration + acc_a },
     { b with acceleration := b.acceleration + acc_b })

/-- Embedding of `resetAccelerations` (simulation.cpp:147-151). -/
def resetAccelerations (bodies : List CelestialBody) : List CelestialBody :=
  bodies.map fun b => { b with acceleration := 0 }

/-- The iteration space of the pairwise force loop
(simulation.cpp:163-167): all `(i, j)` with `i < j < n`, outer loop on `i`,
inner loop on `j`. -/
def pairIndices (n : ℕ) : List (ℕ × ℕ) :=
  (List.range n).flatMap fun i =>
    ((List.range n).filter fun j => i + 1 ≤ j).map fun j => (i, j)

/-- One inner-loop iteration of `updateAccelerations`:
`computeGravitationalForce(bodies[i], bodies[j])`, writing back both. -/
def applyPairForce (sq : ℚ → ℚ) (i j : ℕ) (bs : List CelestialBody) :
    List CelestialBody :=
  match bs[i]?, bs[j]? with
  | some a, some b =>
      let r := computeGravitationalForce sq a b
      (bs.set i r.1).set j r.2
  | _, _ => bs

/-- Embedding of `updateAccelerations` (simulation.cpp:159-168): reset all
accelerations, then run `computeGravitationalForce` over every `i < j` pair. -/
def updateAccelerations (sq : ℚ → ℚ) (bodies : List CelestialBody) :
    List CelestialBody :=
  let bs := resetAccelerations bodies
  (pairIndices bodies.length).foldl (fun cur p => applyPairForce sq p.1 p.2 cur) bs

/-!  ## RK4 integrator (simulation.cpp)  -/

/-- Embedding of `struct StateDerivative` (simulation.cpp:88-91). -/
structure StateDerivative where
  dpos : vec3
  dvel : vec3
deriving DecidableEq, Repr

/-- Embedding of `evaluateDerivatives` (simulation.cpp:176-185).  The C++
mutates `bodies` (via `updateAccelerations`) and returns the derivative
list; here the mutated collection is returned as the first component. -/
def evaluateDerivatives (sq : ℚ → ℚ) (bodies : List CelestialBody) :
    List CelestialBody × List StateDerivative :=
  let ub := updateAccelerations sq bodies
  (ub, ub.map fun b => ⟨b.velocity, b.acceleration⟩)

/-- Embedding of `buildIntermediateState` (simulation.cpp:195-207):
a fresh copy of `bodies` with `scale * d[i]` added to position/velocity. -/
def buildIntermediateState (bodies : List CelestialBody)
    (d : List StateDerivative) (scale : ℚ) : List CelestialBody :=
  List.zipWith
    (fun b k =>
      { b with position := b.position + scale • k.dpos,
               velocity := b.velocity + scale • k.dvel })
    bodies d

/-- The final combination loop of `rk4Step` (simulation.cpp:231-234):
`pos += sixth*(k1 + 2*k2 + 2*k3 + k4)` and likewise for velocity. -/
def rk4Combine (sixth : ℚ) :
    List CelestialBody → List StateDerivative → List StateDerivative →
    List StateDerivative → List StateDerivative → List CelestialBody
  | b :: bs, d1 :: ds1, d2 :: ds2, d3 :: ds3, d4 :: ds4 =>
      { b with
          position := b.position +
            sixth • (d1.dpos + (2 : ℚ) • d2.dpos + (2 : ℚ) • d3.dpos + d4.dpos),
          velocity := b.velocity +
            sixth • (d1.dvel + (2 : ℚ) • d2.dvel + (2 : ℚ) • d3.dvel + d4.dvel) }
        :: rk4Combine sixth bs ds1 ds2 ds3 ds4
  | bs, _, _, _, _ => bs

/-- Embedding of `rk4Step` (simulation.cpp:217-235). -/
def rk4Step (sq : ℚ → ℚ) (bodies : List CelestialBody) (dt : ℚ) :
    List CelestialBody :=
  if bodies.isEmpty then bodies
  else
    let e1 := evaluateDerivatives sq bodies
    let b1 := e1.1
    let k1 := e1.2
    let s2 := buildIntermediateState b1 k1 (dt * (1 / 2))
    let k2 := (evaluateDerivatives sq s2).2
    let s3 := buildIntermediateState b1 k2 (dt * (1 / 2))
    let k3 := (evaluateDerivatives sq s3).2
    let s4 := buildIntermediateState b1 k3 dt
    let k4 := (evaluateDerivatives sq s4).2
    let sixth := dt / 6
    rk4Combine sixth b1 k1 k2 k3 k4

/-- The collection the caller's reference holds after the stage-1
`evaluateDerivatives(bodies)` call inside `rk4Step`. -/
def rk4B1 (sq : ℚ → ℚ) (bodies : List CelestialBody) : List CelestialBody :=
  (evaluateDerivatives sq bodies).1

/-- Stage derivative `k1` of `rk4Step`. -/
def rk4K1 (sq : ℚ → ℚ) (bodies : List CelestialBody) : List StateDerivative :=
  (evaluateDerivatives sq bodies).2

/-- Intermediate state `s2` of `rk4Step`. -/
def rk4S2 (sq : ℚ → ℚ) (bodies : List CelestialBody) (dt : ℚ) :
    List CelestialBody :=
  buildIntermediateState (rk4B1 sq bodies) (rk4K1 sq bodies) (dt * (1 / 2))

/-- Stage derivative `k2` of `rk4Step`. -/
def rk4K2 (sq : ℚ → ℚ) (bodies : List CelestialBody) (dt : ℚ) :
    List StateDerivative :=
  (evaluateDerivatives sq (rk4S2 sq bodies dt)).2

/-- Intermediate state `s3` of `rk4Step`. -/
def rk4S3 (sq : ℚ → ℚ) (bodies : List CelestialBody) (dt : ℚ) :
    List CelestialBody :=
  buildIntermediateState (rk4B1 sq bodies) (rk4K2 sq bodies dt) (dt * (1 / 2))

/-- Stage derivative `k3` of `rk4Step`. -/
def rk4K3 (sq : ℚ → ℚ) (bodies : List CelestialBody) (dt : ℚ) :
    List StateDerivative :=
  (evaluateDerivatives sq (rk4S3 sq bodies dt)).2

/-- Intermediate state `s4` of `rk4Step`. -/
def rk4S4 (sq : ℚ → ℚ) (bodies : List CelestialBody) (dt : ℚ) :
    List CelestialBody :=
  buildIntermediateState (rk4B1 sq bodies) (rk4K3 sq bodies dt) dt

/-- Stage derivative `k4` of `rk4Step`. -/
def rk4K4 (sq : ℚ → ℚ) (bodies : List CelestialBody) (dt : ℚ) :
    List StateDerivative :=
  (evaluateDerivatives sq (rk4S4 sq bodies dt)).2

/-!  ## Conservation diagnostics (conservations.cpp)  -/

/-- Embedding of `struct Conservations` (conservations.h); every field is
default-initialised to zero, as in the C++ member initialisers.  The C++
`std::array<double,3>` momenta are represented as `vec3`. -/
structure Conservations where
  kinetic_energy : ℚ := 0
  potential_energy : ℚ := 0
  total_energy : ℚ := 0
  P : vec3 := 0
  L : vec3 := 0
deriving DecidableEq, Repr

namespace physics

/-- `distance` helper of conservations.cpp: `(a.position - b.position).length()`. -/
def distance (sq : ℚ → ℚ) (a b : CelestialBody) : ℚ :=
  (a.position - b.position).length sq

/-- Embedding of the N-body overload `physics::compute` (conservations.cpp):
kinetic energy and linear momentum in one pass, pairwise potential energy
with the `r == 0` skip, angular momentum, then the total. -/
def compute (sq : ℚ → ℚ) (bodies : List CelestialBody) : Conservations :=
  if bodies.isEmpty then {}
  else
    let C1 := bodies.foldl
      (fun (C : Conservations) b =>
        { C with
            kinetic_energy :=
              C.kinetic_energy + 1 / 2 * b.mass * b.velocity.length_squared,
            P := C.P + b.mass • b.velocity })
      {}
    let C2 := (pairIndices bodies.length).foldl
      (fun (C : Conservations) p =>
        let a := bodies.getD p.1 dummyBody
        let b := bodies.getD p.2 dummyBody
        let r := distance sq a b
        if r = 0 then C
        else
          { C with
              potential_energy :=
                C.potential_energy - constants.G * a.mass * b.mass / r })
      C1
    let C3 := bodies.foldl
      (fun (C : Conservations) b =>
        { C with L := C.L + cross b.position (b.mass • b.velocity) })
      C2
    { C3 with total_energy := C3.kinetic_energy + C3.potential_energy }

end physics

/-!  ## Eclipse geometry (eclipse.cpp)  -/

/-- Embedding of `struct EclipseResult` (eclipse.h). -/
structure EclipseResult where
  shadowCenter : vec3
  umbraRadius : ℚ
  penumbraRadius : ℚ
  eclipseType : ℤ
deriving DecidableEq, Repr

/-- Embedding of `computeSolarEclipse` (eclipse.cpp:27-83). -/
def computeSolarEclipse (sq : ℚ → ℚ) (S E M : vec3) : EclipseResult :=
  let ME := E - M
  let SM := M - S
  let d_em := ME.length sq
  let d_sm := SM.length sq
  if d_em ≤ 0 ∨ d_sm ≤ 0 then
    ⟨E, 0, 0, 0⟩
  else
    let L_u := constants.R_MOON * d_sm / (constants.R_SUN - constants.R_MOON)
    let L_p := constants.R_MOON * d_sm / (constants.R_SUN + constants.R_MOON)
    let umbraRadius := constants.R_MOON * (1 - d_em / L_u)
    let penumbraRadius := constants.R_MOON * (1 + d_em / L_p)
    let u := unit_vector sq ME
    let shadowCenter := E - constants.R_EARTH • u
    let eclipseType : ℤ :=
      if umbraRadius > constants.R_EARTH then 1
      else if umbraRadius < 0 ∧ penumbraRadius > constants.R_EARTH then 2
      else if penumbraRadius > 0 then 3
      else 0
    ⟨shadowCenter, umbraRadius, penumbraRadius, eclipseType⟩

/-!  ## Spec-side definitions

These follow the wording of the specification (spec §4.2, §4.3, §4.4) and
are used only on the right-hand side of the refinement theorems. -/

/-- A body's RK4 state vector per the spec: `(position, velocity)` together
with the identity and mass the derivative function needs. -/
structure BodyState where
  name : String
  mass : ℚ
  position : vec3
  velocity : vec3
deriving DecidableEq, Repr

/-- Projection of a body onto its RK4 state (drops the transient
acceleration). -/
def toPV (b : CelestialBody) : BodyState :=
  ⟨b.name, b.mass, b.position, b.velocity⟩

/-- A body built from an RK4 state, with zero (stale) acceleration. -/
def fromPV (s : BodyState) : CelestialBody :=
  ⟨s.name, s.mass, s.position, s.velocity, 0⟩

/-- Spec §4.2: the derivative of the state is `(velocity, acceleration)`,
where the acceleration is obtained by invoking the force model (spec §4.1)
on that particular state. -/
def specDeriv (sq : ℚ → ℚ) (st : List BodyState) : List StateDerivative :=
  (updateAccelerations sq (st.map fromPV)).map fun b => ⟨b.velocity, b.acceleration⟩

/-- Spec §4.2: `state + c·k`, componentwise on `(position, velocity)`. -/
def specAdvance (st : List BodyState) (c : ℚ) (k : List StateDerivative) :
    List BodyState :=
  List.zipWith
    (fun s d => ⟨s.name, s.mass, s.position + c • d.dpos, s.velocity + c • d.dvel⟩)
    st k

/-- The RK4 weighted sum `k1 + 2·k2 + 2·k3 + k4` for one body. -/
def rk4WeightedSum (a b c d : StateDerivative) : StateDerivative :=
  ⟨a.dpos + (2 : ℚ) • b.dpos + (2 : ℚ) • c.dpos + d.dpos,
   a.dvel + (2 : ℚ) • b.dvel + (2 : ℚ) • c.dvel + d.dvel⟩

/-- Four-way `zipWith`, used to combine the four stage-derivative lists. -/
def zip4With (f : α → β → γ → δ → ε) :
    List α → List β → List γ → List δ → List ε
  | a :: as, b :: bs, c :: cs, d :: ds => f a b c d :: zip4With f as bs cs ds
  | _, _, _, _ => []

/-- Spec §4.2: the classical four-stage Runge-Kutta step,
`state' = state + (dt/6)·(k1 + 2k2 + 2k3 + k4)` with
`k1 = f(state)`, `k2 = f(state + (dt/2)k1)`, `k3 = f(state + (dt/2)k2)`,
`k4 = f(state + dt·k3)`. -/
def specRK4 (sq : ℚ → ℚ) (st : List BodyState) (dt : ℚ) : List BodyState :=
  let k1 := specDeriv sq st
  let k2 := specDeriv sq (specAdvance st (dt / 2) k1)
  let k3 := specDeriv sq (specAdvance st (dt / 2) k2)
  let k4 := specDeriv sq (specAdvance st dt k3)
  specAdvance st (dt / 6) (zip4With rk4WeightedSum k1 k2 k3 k4)

/-- Spec §4.3: kinetic energy `Σ ½ mᵢ|vᵢ|²`. -/
def specKineticEnergy (bodies : List CelestialBody) : ℚ :=
  (bodies.map fun b => 1 / 2 * b.mass * b.velocity.length_squared).sum

/-- Spec §4.3: potential energy `−G·Σ_{i<j} mᵢmⱼ/rᵢⱼ`, a coincident pair
(`rᵢⱼ = 0`) contributing nothing. -/
def specPotentialEnergy (sq : ℚ → ℚ) (bodies : List CelestialBody) : ℚ :=
  -(constants.G *
    ((pairIndices bodies.length).map fun p =>
      let a := bodies.getD p.1 dummyBody
      let b := bodies.getD p.2 dummyBody
      let r := physics.distance sq a b
      if r = 0 then 0 else a.mass * b.mass / r).sum)

/-- Spec §4.3: linear momentum `Σ mᵢvᵢ`. -/
def specLinearMomentum (bodies : List CelestialBody) : vec3 :=
  (bodies.map fun b => b.mass • b.velocity).sum

/-- Spec §4.3: angular momentum `Σ rᵢ × (mᵢvᵢ)` about the origin. -/
def specAngularMomentum (bodies : List CelestialBody) : vec3 :=
  (bodies.map fun b => cross b.position (b.mass • b.velocity)).sum

/-- Spec §4.4: umbra cone length `L_u = R_occ·d_sm / (R_illum − R_occ)`. -/
def specUmbraConeLength (d_sm : ℚ) : ℚ :=
  constants.R_MOON * d_sm / (constants.R_SUN - constants.R_MOON)

/-- Spec §4.4: penumbra cone length `L_p = R_occ·d_sm / (R_illum + R_occ)`. -/
def specPenumbraConeLength (d_sm : ℚ) : ℚ :=
  constants.R_MOON * d_sm / (constants.R_SUN + constants.R_MOON)

/-- Spec §4.4: umbra shadow radius at the primary,
`R_occ·(1 − d_em/L_u)`. -/
def specUmbraRadius (d_em d_sm : ℚ) : ℚ :=
  constants.R_MOON * (1 - d_em / specUmbraConeLength d_sm)

/-- Spec §4.4: penumbra shadow radius at the primary,
`R_occ·(1 + d_em/L_p)`. -/
def specPenumbraRadius (d_em d_sm : ℚ) : ℚ :=
  constants.R_MOON * (1 + d_em / specPenumbraConeLength d_sm)

/-- Spec §4.4: the ordered eclipse classification. -/
def specEclipseClassify (uR pR : ℚ) : ℤ :=
  if uR > constants.R_EARTH then 1
  else if uR < 0 ∧ pR > constants.R_EARTH then 2
  else if pR > 0 then 3
  else 0

/-!  ## Helper lemmas  -/

@[simp] theorem vec3.add_x (u v : vec3) : (u + v).x = u.x + v.x := rfl

@[simp] theorem vec3.add_y (u v : vec3) : (u + v).y = u.y + v.y := rfl

@[simp] theorem vec3.add_z (u v : vec3) : (u + v).z = u.z + v.z := rfl

@[simp] theorem vec3.sub_x (u v : vec3) : (u - v).x = u.x - v.x := rfl

@[simp] theorem vec3.sub_y (u v : vec3) : (u - v).y = u.y - v.y := rfl

@[simp] theorem vec3.sub_z (u v : vec3) : (u - v).z = u.z - v.z := rfl

@[simp] theorem vec3.neg_x (v : vec3) : (-v).x = -v.x := rfl

@[simp] theorem vec3.neg_y (v : vec3) : (-v).y = -v.y := rfl

@[simp] theorem vec3.neg_z (v : vec3) : (-v).z = -v.z := rfl

@[simp] theorem vec3.smul_x (t : ℚ) (v : vec3) : (t • v).x = t * v.x := rfl

@[simp] theorem vec3.smul_y (t : ℚ) (v : vec3) : (t • v).y = t * v.y := rfl

@[simp] theorem vec3.smul_z (t : ℚ) (v : vec3) : (t • v).z = t * v.z := rfl

@[simp] theorem vec3.zero_x : (0 : vec3).x = 0 := rfl

@[simp] theorem vec3.zero_y : (0 : vec3).y = 0 := rfl

@[simp] theorem vec3.zero_z : (0 : vec3).z = 0 := rfl

@[ext] theorem vec3.ext_cmp {u v : vec3} (hx : u.x = v.x) (hy : u.y = v.y)
    (hz : u.z = v.z) : u = v := by
  cases u; cases v; simp_all

theorem toPV_fromPV (s : BodyState) : toPV (fromPV s) = s := rfl

theorem resetAcc_eq_map_pv (bs : List CelestialBody) :
    resetAccelerations bs = (bs.map toPV).map fromPV := by
  rw [List.map_map]; rfl

theorem map_toPV_resetAcc (bs : List CelestialBody) :
    (resetAccelerations bs).map toPV = bs.map toPV := by
  rw [resetAccelerations, List.map_map]
  rfl

theorem updateAcc_congr_pv (sq : ℚ → ℚ) {bs₁ bs₂ : List CelestialBody}
    (h : bs₁.map toPV = bs₂.map toPV) :
    updateAccelerations sq bs₁ = updateAccelerations sq bs₂ := by
  have hlen : bs₁.length = bs₂.length := by
    have hl := congrArg List.length h
    simpa using hl
  unfold updateAccelerations
  rw [resetAcc_eq_map_pv bs₁, resetAcc_eq_map_pv bs₂, h, hlen]

theorem toPV_cgf_fst (sq : ℚ → ℚ) (a b : CelestialBody) :
    toPV (computeGravitationalForce sq a b).1 = toPV a := by
  unfold computeGravitationalForce
  dsimp only
  split <;> rfl

theorem toPV_cgf_snd (sq : ℚ → ℚ) (a b : CelestialBody) :
    toPV (computeGravitationalForce sq a b).2 = toPV b := by
  unfold computeGravitationalForce
  dsimp only
  split <;> rfl

theorem map_toPV_set (bs : List CelestialBody) (i : ℕ) (a' : CelestialBody)
    (h : ∀ a, bs[i]? = some a → toPV a' = toPV a) :
    (bs.set i a').map toPV = bs.map toPV := by
  induction bs generalizing i with
  | nil => rfl
  | cons x xs ih =>
      cases i with
      | zero =>
          have hx := h x (by simp)
          simp [List.set, hx]
      | succ k =>
          have hk : ∀ a, xs[k]? = some a → toPV a' = toPV a := fun a ha =>
            h a (by simpa using ha)
          simp [List.set, ih k hk]

theorem map_toPV_applyPair (sq : ℚ → ℚ) (i j : ℕ) (bs : List CelestialBody) :
    (applyPairForce sq i j bs).map toPV = bs.map toPV := by
  unfold applyPairForce
  rcases hi : bs[i]? with _ | a
  · rfl
  rcases hj : bs[j]? with _ | b
  · rfl
  dsimp only
  have h1 : (bs.set i (computeGravitationalForce sq a b).1).map toPV
      = bs.map toPV := by
    refine map_toPV_set bs i _ fun a₀ ha₀ => ?_
    rw [hi] at ha₀
    cases ha₀
    exact toPV_cgf_fst sq a b
  have h2 : ((bs.set i (computeGravitationalForce sq a b).1).set j
      (computeGravitationalForce sq a b).2).map toPV
      = (bs.set i (computeGravitationalForce sq a b).1).map toPV := by
    refine map_toPV_set _ j _ fun b₀ hb₀ => ?_
    rw [List.getElem?_set] at hb₀
    by_cases hij : i = j
    · rw [if_pos hij] at hb₀
      split at hb₀
      · cases hb₀
        rw [toPV_cgf_snd sq a b, toPV_cgf_fst sq a b]
        have heq : bs[i]? = bs[j]? := by rw [hij]
        rw [heq, hj] at hi
        cases hi
        rfl
      · exact Option.noConfusion hb₀
    · rw [if_neg hij, hj] at hb₀
      cases hb₀
      exact toPV_cgf_snd sq a b
  rw [h2, h1]

theorem map_toPV_foldPairs (sq : ℚ → ℚ) (pl : List (ℕ × ℕ)) :
    ∀ cur : List CelestialBody,
      (pl.foldl (fun c p => applyPairForce sq p.1 p.2 c) cur).map toPV
        = cur.map toPV := by
  induction pl with
  | nil => intro cur; rfl
  | cons p ps ih =>
      intro cur
      rw [List.foldl_cons, ih, map_toPV_applyPair]

theorem map_toPV_updateAcc (sq : ℚ → ℚ) (bs : List CelestialBody) :
    (updateAccelerations sq bs).map toPV = bs.map toPV := by
  unfold updateAccelerations
  rw [map_toPV_foldPairs, map_toPV_resetAcc]

theorem updateAcc_length (sq : ℚ → ℚ) (bs : List CelestialBody) :
    (updateAccelerations sq bs).length = bs.length := by
  have h := congrArg List.length (map_toPV_updateAcc sq bs)
  simpa using h

theorem evalDerivs_fst_pv (sq : ℚ → ℚ) (bs : List CelestialBody) :
    (evaluateDerivatives sq bs).1.map toPV = bs.map toPV :=
  map_toPV_updateAcc sq bs

theorem specDeriv_eq_code (sq : ℚ → ℚ) (bs : List CelestialBody) :
    specDeriv sq (bs.map toPV) = (evaluateDerivatives sq bs).2 := by
  unfold specDeriv evaluateDerivatives
  dsimp only
  have h : ((bs.map toPV).map fromPV).map toPV = bs.map toPV := by
    rw [List.map_map, List.map_map]
    rfl
  rw [updateAcc_congr_pv sq h]

theorem buildIntermediate_pv (bs : List CelestialBody)
    (d : List StateDerivative) (c : ℚ) :
    (buildIntermediateState bs d c).map toPV = specAdvance (bs.map toPV) c d := by
  unfold buildIntermediateState specAdvance
  rw [List.map_zipWith, List.zipWith_map_left]
  rfl

theorem evalDerivs_snd_length (sq : ℚ → ℚ) (bs : List CelestialBody) :
    (evaluateDerivatives sq bs).2.length = bs.length := by
  unfold evaluateDerivatives
  dsimp only
  rw [List.length_map, updateAcc_length]

theorem buildIntermediate_length (bs : List CelestialBody)
    (d : List StateDerivative) (c : ℚ) :
    (buildIntermediateState bs d c).length = min bs.length d.length := by
  unfold buildIntermediateState
  rw [List.length_zipWith]

theorem rk4Step_eq_combine (sq : ℚ → ℚ) (bodies : List CelestialBody) (dt : ℚ)
    (h : bodies.isEmpty = false) :
    rk4Step sq bodies dt =
      rk4Combine (dt / 6) (rk4B1 sq bodies) (rk4K1 sq bodies)
        (rk4K2 sq bodies dt) (rk4K3 sq bodies dt) (rk4K4 sq bodies dt) := by
  unfold rk4Step
  rw [h]
  rfl

theorem rk4Combine_pv (s : ℚ) :
    ∀ (bs : List CelestialBody) (k1 k2 k3 k4 : List StateDerivative),
      k1.length = bs.length → k2.length = bs.length →
      k3.length = bs.length → k4.length = bs.length →
      (rk4Combine s bs k1 k2 k3 k4).map toPV
        = specAdvance (bs.map toPV) s (zip4With rk4WeightedSum k1 k2 k3 k4) := by
  intro bs
  induction bs with
  | nil =>
      intro k1 k2 k3 k4 h1 h2 h3 h4
      rw [List.length_nil, List.length_eq_zero] at h1 h2 h3 h4
      subst h1; subst h2; subst h3; subst h4
      rfl
  | cons b bs ih =>
      intro k1 k2 k3 k4 h1 h2 h3 h4
      rcases k1 with _ | ⟨d1, t1⟩
      · simp at h1
      rcases k2 with _ | ⟨d2, t2⟩
      · simp at h2
      rcases k3 with _ | ⟨d3, t3⟩
      · simp at h3
      rcases k4 with _ | ⟨d4, t4⟩
      · simp at h4
      simp only [List.length_cons, Nat.succ.injEq] at h1 h2 h3 h4
      show _ :: _ = _ :: _
      rw [ih t1 t2 t3 t4 h1 h2 h3 h4]
      rfl

theorem rk4B1_pv (sq : ℚ → ℚ) (bodies : List CelestialBody) :
    (rk4B1 sq bodies).map toPV = bodies.map toPV :=
  evalDerivs_fst_pv sq bodies

theorem rk4K1_spec (sq : ℚ → ℚ) (bodies : List CelestialBody) :
    specDeriv sq (bodies.map toPV) = rk4K1 sq bodies :=
  specDeriv_eq_code sq bodies

theorem rk4S2_pv (sq : ℚ → ℚ) (bodies : List CelestialBody) (dt : ℚ) :
    (rk4S2 sq bodies dt).map toPV
      = specAdvance (bodies.map toPV) (dt / 2) (specDeriv sq (bodies.map toPV)) := by
  unfold rk4S2
  rw [buildIntermediate_pv, rk4B1_pv, show dt * (1 / 2) = dt / 2 from by ring,
    rk4K1_spec]

theorem rk4K2_spec (sq : ℚ → ℚ) (bodies : List CelestialBody) (dt : ℚ) :
    specDeriv sq
        (specAdvance (bodies.map toPV) (dt / 2) (specDeriv sq (bodies.map toPV)))
      = rk4K2 sq bodies dt := by
  rw [← rk4S2_pv]
  exact specDeriv_eq_code sq (rk4S2 sq bodies dt)

theorem rk4S3_pv (sq : ℚ → ℚ) (bodies : List CelestialBody) (dt : ℚ) :
    (rk4S3 sq bodies dt).map toPV
      = specAdvance (bodies.map toPV) (dt / 2)
          (specDeriv sq
            (specAdvance (bodies.map toPV) (dt / 2)
              (specDeriv sq (bodies.map toPV)))) := by
  unfold rk4S3
  rw [buildIntermediate_pv, rk4B1_pv, show dt * (1 / 2) = dt / 2 from by ring,
    rk4K2_spec]

theorem rk4K3_spec (sq : ℚ → ℚ) (bodies : List CelestialBody) (dt : ℚ) :
    specDeriv sq
        (specAdvance (bodies.map toPV) (dt / 2)
          (specDeriv sq
            (specAdvance (bodies.map toPV) (dt / 2)
              (specDeriv sq (bodies.map toPV)))))
      = rk4K3 sq bodies dt := by
  rw [← rk4S3_pv]
  exact specDeriv_eq_code sq (rk4S3 sq bodies dt)

theorem rk4S4_pv (sq : ℚ → ℚ) (bodies : List CelestialBody) (dt : ℚ) :
    (rk4S4 sq bodies dt).map toPV
      = specAdvance (bodies.map toPV) dt
          (specDeriv sq
            (specAdvance (bodies.map toPV) (dt / 2)
              (specDeriv sq
                (specAdvance (bodies.map toPV) (dt / 2)
                  (specDeriv sq (bodies.map toPV)))))) := by
  unfold rk4S4
  rw [buildIntermediate_pv, rk4B1_pv, rk4K3_spec]

theorem rk4K4_spec (sq : ℚ → ℚ) (bodies : List CelestialBody) (dt : ℚ) :
    specDeriv sq
        (specAdvance (bodies.map toPV) dt
          (specDeriv sq
            (specAdvance (bodies.map toPV) (dt / 2)
              (specDeriv sq
                (specAdvance (bodies.map toPV) (dt / 2)
                  (specDeriv sq (bodies.map toPV)))))))
      = rk4K4 sq bodies dt := by
  rw [← rk4S4_pv]
  exact specDeriv_eq_code sq (rk4S4 sq bodies dt)

theorem rk4B1_length (sq : ℚ → ℚ) (bodies : List CelestialBody) :
    (rk4B1 sq bodies).length = bodies.length :=
  updateAcc_length sq bodies

theorem rk4K1_length (sq : ℚ → ℚ) (bodies : List CelestialBody) :
    (rk4K1 sq bodies).length = bodies.length :=
  evalDerivs_snd_length sq bodies

theorem rk4S2_length (sq : ℚ → ℚ) (bodies : List CelestialBody) (dt : ℚ) :
    (rk4S2 sq bodies dt).length = bodies.length := by
  unfold rk4S2
  rw [buildIntermediate_length, rk4B1_length, rk4K1_length, min_self]

theorem rk4K2_length (sq : ℚ → ℚ) (bodies : List CelestialBody) (dt : ℚ) :
    (rk4K2 sq bodies dt).length = bodies.length := by
  unfold rk4K2
  rw [evalDerivs_snd_length, rk4S2_length]

theorem rk4S3_length (sq : ℚ → ℚ) (bodies : List CelestialBody) (dt : ℚ) :
    (rk4S3 sq bodies dt).length = bodies.length := by
  unfold rk4S3
  rw [buildIntermediate_length, rk4B1_length, rk4K2_length, min_self]

theorem rk4K3_length (sq : ℚ → ℚ) (bodies : List CelestialBody) (dt : ℚ) :
    (rk4K3 sq bodies dt).length = bodies.length := by
  unfold rk4K3
  rw [evalDerivs_snd_length, rk4S3_length]

theorem rk4S4_length (sq : ℚ → ℚ) (bodies : List CelestialBody) (dt : ℚ) :
    (rk4S4 sq bodies dt).length = bodies.length := by
  unfold rk4S4
  rw [buildIntermediate_length, rk4B1_length, rk4K3_length, min_self]

theorem rk4K4_length (sq : ℚ → ℚ) (bodies : List CelestialBody) (dt : ℚ) :
    (rk4K4 sq bodies dt).length = bodies.length := by
  unfold rk4K4
  rw [evalDerivs_snd_length, rk4S4_length]

/-- C1: for every body collection and timestep `dt`, `rk4Step` advances each
body's `(position, velocity)` state by the classical four-stage Runge-Kutta
rule: with `f` recomputing the acceleration through the force model on the
given intermediate state, `k1 = f(state)`, `k2 = f(state + (dt/2)k1)`,
`k3 = f(state + (dt/2)k2)`, `k4 = f(state + dt·k3)`, and the new state is
`state + (dt/6)(k1 + 2k2 + 2k3 + k4)` for every body. -/
theorem rk4Step_refines_classical_rk4 (sq : ℚ → ℚ)
    (bodies : List CelestialBody) (dt : ℚ) :
    (rk4Step sq bodies dt).map toPV = specRK4 sq (bodies.map toPV) dt := by
  by_cases hb : bodies = []
  · subst hb; rfl
  · rw [rk4Step_eq_combine sq bodies dt (List.isEmpty_eq_false.mpr hb)]
    rw [rk4Combine_pv (dt / 6) (rk4B1 sq bodies) (rk4K1 sq bodies)
      (rk4K2 sq bodies dt) (rk4K3 sq bodies dt) (rk4K4 sq bodies dt)
      (by rw [rk4K1_length, rk4B1_length])
      (by rw [rk4K2_length, rk4B1_length])
      (by rw [rk4K3_length, rk4B1_length])
      (by rw [rk4K4_length, rk4B1_length])]
    rw [rk4B1_pv, ← rk4K1_spec, ← rk4K2_spec, ← rk4K3_spec, ← rk4K4_spec]
    rfl

@[ext] theorem Conservations.ext_all {C₁ C₂ : Conservations}
    (h1 : C₁.kinetic_energy = C₂.kinetic_energy)
    (h2 : C₁.potential_energy = C₂.potential_energy)
    (h3 : C₁.total_energy = C₂.total_energy)
    (h4 : C₁.P = C₂.P) (h5 : C₁.L = C₂.L) : C₁ = C₂ := by
  cases C₁; cases C₂; simp_all

theorem foldl_kinetic_momentum (l : List CelestialBody) (C : Conservations) :
    (l.foldl
      (fun (C : Conservations) b =>
        { C with
            kinetic_energy :=
              C.kinetic_energy + 1 / 2 * b.mass * b.velocity.length_squared,
            P := C.P + b.mass • b.velocity })
      C)
    = { C with
        kinetic_energy := C.kinetic_energy + specKineticEnergy l,
        P := C.P + specLinearMomentum l } := by
  induction l generalizing C with
  | nil =>
      ext <;> simp [specKineticEnergy, specLinearMomentum]
  | cons b l ih =>
      rw [List.foldl_cons, ih]
      ext <;>
        simp [specKineticEnergy, specLinearMomentum, add_assoc]

theorem foldl_potential (sq : ℚ → ℚ) (bodies : List CelestialBody)
    (pl : List (ℕ × ℕ)) (C : Conservations) :
    (pl.foldl
      (fun (C : Conservations) p =>
        let a := bodies.getD p.1 dummyBody
        let b := bodies.getD p.2 dummyBody
        let r := physics.distance sq a b
        if r = 0 then C
        else
          { C with
              potential_energy :=
                C.potential_energy - constants.G * a.mass * b.mass / r })
      C)
    = { C with
        potential_energy := C.potential_energy -
          constants.G *
            ((pl.map fun p =>
              let a := bodies.getD p.1 dummyBody
              let b := bodies.getD p.2 dummyBody
              let r := physics.distance sq a b
              if r = 0 then 0 else a.mass * b.mass / r).sum) } := by
  induction pl generalizing C with
  | nil => ext <;> simp
  | cons p ps ih =>
      rw [List.foldl_cons, List.map_cons, List.sum_cons]
      dsimp only
      by_cases hr :
          physics.distance sq (bodies.getD p.1 dummyBody)
            (bodies.getD p.2 dummyBody) = 0
      · rw [if_pos hr, if_pos hr, ih]
        ext <;> simp <;> ring
      · rw [if_neg hr, if_neg hr, ih]
        ext <;> simp <;> ring

theorem foldl_angular (l : List CelestialBody) (C : Conservations) :
    (l.foldl
      (fun (C : Conservations) b =>
        { C with L := C.L + cross b.position (b.mass • b.velocity) })
      C)
    = { C with L := C.L + specAngularMomentum l } := by
  induction l generalizing C with
  | nil => ext <;> simp [specAngularMomentum]
  | cons b l ih =>
      rw [List.foldl_cons, ih]
      ext <;> simp [specAngularMomentum, add_assoc]

/-- C2: for every body collection, `physics::compute` returns kinetic energy
`Σ ½mᵢ|vᵢ|²`, potential energy `−G·Σ_{i<j} mᵢmⱼ/rᵢⱼ` with coincident pairs
(`rᵢⱼ = 0`) skipped, total energy equal to their sum, linear momentum
`Σ mᵢvᵢ`, and angular momentum `Σ rᵢ × (mᵢvᵢ)` about the origin. -/
theorem physicsCompute_eq_spec (sq : ℚ → ℚ) (bodies : List CelestialBody) :
    physics.compute sq bodies =
      ⟨specKineticEnergy bodies, specPotentialEnergy sq bodies,
       specKineticEnergy bodies + specPotentialEnergy sq bodies,
       specLinearMomentum bodies, specAngularMomentum bodies⟩ := by
  unfold physics.compute
  by_cases hb : bodies = []
  · subst hb
    rw [if_pos (show ([] : List CelestialBody).isEmpty = true from rfl)]
    ext <;>
      simp [specKineticEnergy, specPotentialEnergy, specLinearMomentum,
        specAngularMomentum, pairIndices]
  · rw [if_neg (by simpa using hb)]
    dsimp only
    rw [foldl_kinetic_momentum, foldl_potential, foldl_angular]
    ext <;>
      simp [specPotentialEnergy] <;> ring

theorem eclipse_eq_of_pos (sq : ℚ → ℚ) (S E M : vec3)
    (h1 : 0 < (E - M).length sq) (h2 : 0 < (M - S).length sq) :
    computeSolarEclipse sq S E M =
      ⟨E - constants.R_EARTH • unit_vector sq (E - M),
       specUmbraRadius ((E - M).length sq) ((M - S).length sq),
       specPenumbraRadius ((E - M).length sq) ((M - S).length sq),
       specEclipseClassify
         (specUmbraRadius ((E - M).length sq) ((M - S).length sq))
         (specPenumbraRadius ((E - M).length sq) ((M - S).length sq))⟩ := by
  unfold computeSolarEclipse
  rw [if_neg (by push_neg; exact ⟨h1, h2⟩)]
  rfl

/-- C3: for every non-degenerate input (`d_em > 0`, `d_sm > 0`),
`computeSolarEclipse` returns the similar-triangles cone radii
`umbraRadius = R_occ·(1 − d_em/L_u)` and
`penumbraRadius = R_occ·(1 + d_em/L_p)` with
`L_u = R_occ·d_sm/(R_illum − R_occ)` and `L_p = R_occ·d_sm/(R_illum + R_occ)`,
a shadow center `E` minus the unit vector from occluder to primary scaled by
the primary's radius, and the ordered classification
total / annular / partial / none. -/
theorem computeSolarEclipse_nondegenerate (sq : ℚ → ℚ) (S E M : vec3)
    (h1 : 0 < (E - M).length sq) (h2 : 0 < (M - S).length sq) :
    computeSolarEclipse sq S E M =
      ⟨E - constants.R_EARTH • unit_vector sq (E - M),
       specUmbraRadius ((E - M).length sq) ((M - S).length sq),
       specPenumbraRadius ((E - M).length sq) ((M - S).length sq),
       specEclipseClassify
         (specUmbraRadius ((E - M).length sq) ((M - S).length sq))
         (specPenumbraRadius ((E - M).length sq) ((M - S).length sq))⟩ :=
  eclipse_eq_of_pos sq S E M h1 h2

/-- C3 witness: a concrete non-degenerate configuration. -/
theorem computeSolarEclipse_nondegenerate_witness :
    (0 < ((⟨2, 0, 0⟩ : vec3) - ⟨1, 0, 0⟩).length id ∧
      0 < ((⟨1, 0, 0⟩ : vec3) - ⟨0, 0, 0⟩).length id) ∧
    computeSolarEclipse id ⟨0, 0, 0⟩ ⟨2, 0, 0⟩ ⟨1, 0, 0⟩ =
      ⟨(⟨2, 0, 0⟩ : vec3) - constants.R_EARTH •
          unit_vector id ((⟨2, 0, 0⟩ : vec3) - ⟨1, 0, 0⟩),
       specUmbraRadius (((⟨2, 0, 0⟩ : vec3) - ⟨1, 0, 0⟩).length id)
         (((⟨1, 0, 0⟩ : vec3) - ⟨0, 0, 0⟩).length id),
       specPenumbraRadius (((⟨2, 0, 0⟩ : vec3) - ⟨1, 0, 0⟩).length id)
         (((⟨1, 0, 0⟩ : vec3) - ⟨0, 0, 0⟩).length id),
       specEclipseClassify
         (specUmbraRadius (((⟨2, 0, 0⟩ : vec3) - ⟨1, 0, 0⟩).length id)
           (((⟨1, 0, 0⟩ : vec3) - ⟨0, 0, 0⟩).length id))
         (specPenumbraRadius (((⟨2, 0, 0⟩ : vec3) - ⟨1, 0, 0⟩).length id)
           (((⟨1, 0, 0⟩ : vec3) - ⟨0, 0, 0⟩).length id))⟩ :=
  ⟨⟨by norm_num [vec3.length, vec3.length_squared],
    by norm_num [vec3.length, vec3.length_squared]⟩,
   computeSolarEclipse_nondegenerate id ⟨0, 0, 0⟩ ⟨2, 0, 0⟩ ⟨1, 0, 0⟩
     (by norm_num [vec3.length, vec3.length_squared])
     (by norm_num [vec3.length, vec3.length_squared])⟩

/-- C8: every degenerate input (`d_em ≤ 0` or `d_sm ≤ 0`) short-circuits to a
no-eclipse result centered at the primary, with zero radii and type 0. -/
theorem computeSolarEclipse_degenerate (sq : ℚ → ℚ) (S E M : vec3)
    (h : (E - M).length sq ≤ 0 ∨ (M - S).length sq ≤ 0) :
    computeSolarEclipse sq S E M = ⟨E, 0, 0, 0⟩ := by
  unfold computeSolarEclipse
  rw [if_pos h]

/-- C8 witness: all three bodies at the origin. -/
theorem computeSolarEclipse_degenerate_witness :
    (((⟨0, 0, 0⟩ : vec3) - ⟨0, 0, 0⟩).length id ≤ 0 ∨
      ((⟨0, 0, 0⟩ : vec3) - ⟨0, 0, 0⟩).length id ≤ 0) ∧
    computeSolarEclipse id ⟨0, 0, 0⟩ ⟨0, 0, 0⟩ ⟨0, 0, 0⟩ =
      ⟨⟨0, 0, 0⟩, 0, 0, 0⟩ :=
  ⟨Or.inl (by norm_num [vec3.length, vec3.length_squared]),
   computeSolarEclipse_degenerate id ⟨0, 0, 0⟩ ⟨0, 0, 0⟩ ⟨0, 0, 0⟩
     (Or.inl (by norm_num [vec3.length, vec3.length_squared]))⟩

/-- C7 counterexample: with the primary and occluder coincident the code
returns zero radii, not the occluder's own radius `R_MOON`. -/
theorem coincident_radii_not_R_MOON :
    (computeSolarEclipse id ⟨0, 0, 0⟩ ⟨1, 0, 0⟩ ⟨1, 0, 0⟩).umbraRadius = 0 ∧
    (computeSolarEclipse id ⟨0, 0, 0⟩ ⟨1, 0, 0⟩ ⟨1, 0, 0⟩).penumbraRadius = 0 ∧
    (computeSolarEclipse id ⟨0, 0, 0⟩ ⟨1, 0, 0⟩ ⟨1, 0, 0⟩).umbraRadius
      ≠ constants.R_MOON ∧
    (computeSolarEclipse id ⟨0, 0, 0⟩ ⟨1, 0, 0⟩ ⟨1, 0, 0⟩).penumbraRadius
      ≠ constants.R_MOON := by
  refine ⟨?_, ?_, ?_, ?_⟩ <;>
    norm_num [computeSolarEclipse, vec3.length, vec3.length_squared,
      constants.R_MOON]

/-- C7 (amended): with the primary and occluder coincident (`d_em = 0`),
`computeSolarEclipse` short-circuits to the no-eclipse result centered at
the primary with both radii zero; the cone divisions are never evaluated. -/
theorem computeSolarEclipse_coincident (sq : ℚ → ℚ) (S E M : vec3)
    (h : (E - M).length sq = 0) :
    computeSolarEclipse sq S E M = ⟨E, 0, 0, 0⟩ := by
  unfold computeSolarEclipse
  rw [if_pos (Or.inl (le_of_eq h))]

/-- C7 witness: primary and occluder at the same point. -/
theorem computeSolarEclipse_coincident_witness :
    ((⟨1, 0, 0⟩ : vec3) - ⟨1, 0, 0⟩).length id = 0 ∧
    computeSolarEclipse id ⟨0, 0, 0⟩ ⟨1, 0, 0⟩ ⟨1, 0, 0⟩ =
      ⟨⟨1, 0, 0⟩, 0, 0, 0⟩ :=
  ⟨by norm_num [vec3.length, vec3.length_squared],
   computeSolarEclipse_coincident id ⟨0, 0, 0⟩ ⟨1, 0, 0⟩ ⟨1, 0, 0⟩
     (by norm_num [vec3.length, vec3.length_squared])⟩

/-- C9: for every non-degenerate input the penumbra radius is strictly
positive (the physical constants satisfy `0 < R_MOON < R_SUN`), so the
final `else` branch is unreachable and the eclipse type is never 0. -/
theorem computeSolarEclipse_nondegenerate_never_none (sq : ℚ → ℚ)
    (S E M : vec3) (h1 : 0 < (E - M).length sq)
    (h2 : 0 < (M - S).length sq) :
    (computeSolarEclipse sq S E M).eclipseType ≠ 0 := by
  rw [eclipse_eq_of_pos sq S E M h1 h2]
  dsimp only
  have hR : (0 : ℚ) < constants.R_MOON := by norm_num [constants.R_MOON]
  have hRS : (0 : ℚ) < constants.R_SUN + constants.R_MOON := by
    norm_num [constants.R_SUN, constants.R_MOON]
  have hLp : 0 < specPenumbraConeLength ((M - S).length sq) := by
    unfold specPenumbraConeLength
    exact div_pos (mul_pos hR h2) hRS
  have hquot : 0 < (E - M).length sq / specPenumbraConeLength ((M - S).length sq) :=
    div_pos h1 hLp
  have hpR : 0 < specPenumbraRadius ((E - M).length sq) ((M - S).length sq) := by
    unfold specPenumbraRadius
    have hsum : (0 : ℚ) <
        1 + (E - M).length sq / specPenumbraConeLength ((M - S).length sq) := by
      linarith
    exact mul_pos hR hsum
  unfold specEclipseClassify
  split_ifs with hA hB
  · decide
  · decide
  · decide

/-- C9 witness: a concrete non-degenerate configuration on the y-axis. -/
theorem computeSolarEclipse_never_none_witness :
    (0 < ((⟨0, 2, 0⟩ : vec3) - ⟨0, 1, 0⟩).length id ∧
      0 < ((⟨0, 1, 0⟩ : vec3) - ⟨0, 0, 0⟩).length id) ∧
    (computeSolarEclipse id ⟨0, 0, 0⟩ ⟨0, 2, 0⟩ ⟨0, 1, 0⟩).eclipseType ≠ 0 :=
  ⟨⟨by norm_num [vec3.length, vec3.length_squared],
    by norm_num [vec3.length, vec3.length_squared]⟩,
   computeSolarEclipse_nondegenerate_never_none id ⟨0, 0, 0⟩ ⟨0, 2, 0⟩ ⟨0, 1, 0⟩
     (by norm_num [vec3.length, vec3.length_squared])
     (by norm_num [vec3.length, vec3.length_squared])⟩

/-- C5: `computeGravitationalForce` is total and never divides by a value
below 1: below the proximity threshold (`r2 < 1`) both bodies are returned
entirely unchanged, and otherwise both divisors `r2` and `r = sqrt r2` are
at least 1 (for a square root satisfying `1 ≤ x → 1 ≤ sqrt x`). -/
theorem computeGravitationalForce_guard (sq : ℚ → ℚ) (a b : CelestialBody)
    (hsq : ∀ x : ℚ, 1 ≤ x → 1 ≤ sq x) :
    ((b.position - a.position).length_squared < 1 →
      computeGravitationalForce sq a b = (a, b)) ∧
    (1 ≤ (b.position - a.position).length_squared →
      1 ≤ (b.position - a.position).length_squared ∧
      1 ≤ sq ((b.position - a.position).length_squared)) := by
  constructor
  · intro h
    unfold computeGravitationalForce
    rw [if_pos h]
  · intro h
    exact ⟨h, hsq _ h⟩

/-- C5 witness: two unit masses two meters apart, with the identity as the
square-root oracle (which satisfies the hypothesis on `[1, ∞)`). -/
theorem computeGravitationalForce_guard_witness :
    (((⟨2, 0, 0⟩ : vec3) - ⟨0, 0, 0⟩).length_squared < 1 →
      computeGravitationalForce id ⟨"a", 1, ⟨0, 0, 0⟩, 0, 0⟩
        ⟨"b", 1, ⟨2, 0, 0⟩, 0, 0⟩ =
      (⟨"a", 1, ⟨0, 0, 0⟩, 0, 0⟩, ⟨"b", 1, ⟨2, 0, 0⟩, 0, 0⟩)) ∧
    (1 ≤ ((⟨2, 0, 0⟩ : vec3) - ⟨0, 0, 0⟩).length_squared →
      1 ≤ ((⟨2, 0, 0⟩ : vec3) - ⟨0, 0, 0⟩).length_squared ∧
      1 ≤ id (((⟨2, 0, 0⟩ : vec3) - ⟨0, 0, 0⟩).length_squared)) :=
  computeGravitationalForce_guard id ⟨"a", 1, ⟨0, 0, 0⟩, 0, 0⟩
    ⟨"b", 1, ⟨2, 0, 0⟩, 0, 0⟩ (fun x h => h)

theorem pairIndices_mem (n i j : ℕ) :
    (i, j) ∈ pairIndices n ↔ i < j ∧ j < n := by
  simp only [pairIndices, List.mem_flatMap, List.mem_map, List.mem_filter,
    List.mem_range, Prod.mk.injEq, decide_eq_true_eq]
  constructor
  · rintro ⟨a, ha, b, ⟨hb, hab⟩, h1, h2⟩
    subst h1; subst h2
    omega
  · rintro ⟨hij, hjn⟩
    exact ⟨i, by omega, j, ⟨hjn, by omega⟩, rfl, rfl⟩

theorem pairIndices_nodup (n : ℕ) : (pairIndices n).Nodup := by
  unfold pairIndices
  refine List.nodup_flatMap.mpr ⟨?_, ?_⟩
  · intro i _
    refine List.Nodup.map ?_ (List.Nodup.filter _ (List.nodup_range n))
    intro a b hEq
    injection hEq
  · refine List.Pairwise.imp ?_ (List.pairwise_lt_range n)
    intro a b hab x hxa hxb
    simp only [List.mem_map, List.mem_filter, List.mem_range,
      decide_eq_true_eq] at hxa hxb
    obtain ⟨ja, _, rfl⟩ := hxa
    obtain ⟨jb, _, hEq⟩ := hxb
    have hfst : b = a := congrArg Prod.fst hEq
    omega

theorem updateAcc_two (sq : ℚ → ℚ) (a b : CelestialBody) :
    updateAccelerations sq [a, b] =
      [(computeGravitationalForce sq { a with acceleration := 0 }
          { b with acceleration := 0 }).1,
       (computeGravitationalForce sq { a with acceleration := 0 }
          { b with acceleration := 0 }).2] := rfl

/-- C4: the pairwise force loop visits every unordered pair `(i, j)` with
`i < j` exactly once, each pair's contribution is mass-weighted antisymmetric
(Newton's third law), and for a two-body collection the accumulated
accelerations satisfy `m_a·acc_a = −m_b·acc_b` exactly. -/
theorem force_loop_newton_third_law (sq : ℚ → ℚ) (n : ℕ)
    (a b : CelestialBody)
    (h : 1 ≤ (b.position - a.position).length_squared) :
    ((pairIndices n).Nodup ∧
      ∀ i j : ℕ, ((i, j) ∈ pairIndices n ↔ i < j ∧ j < n)) ∧
    a.mass • ((computeGravitationalForce sq a b).1.acceleration - a.acceleration)
      = -(b.mass •
          ((computeGravitationalForce sq a b).2.acceleration - b.acceleration)) ∧
    a.mass • ((updateAccelerations sq [a, b]).getD 0 dummyBody).acceleration
      = -(b.mass •
          ((updateAccelerations sq [a, b]).getD 1 dummyBody).acceleration) := by
  refine ⟨⟨pairIndices_nodup n, fun i j => pairIndices_mem n i j⟩, ?_, ?_⟩
  · unfold computeGravitationalForce
    dsimp only
    rw [if_neg (not_lt.mpr h)]
    dsimp only
    ext <;> simp <;> ring
  · rw [updateAcc_two]
    simp only [List.getD_cons_zero, List.getD_cons_succ]
    unfold computeGravitationalForce
    dsimp only
    rw [if_neg (not_lt.mpr h)]
    dsimp only
    ext <;> simp <;> ring

/-- C4 witness: two unit bodies 2 m apart (so `r² = 4 ≥ 1`), with `n = 3`. -/
theorem force_loop_newton_third_law_witness :
    ((pairIndices 3).Nodup ∧
      ∀ i j : ℕ, ((i, j) ∈ pairIndices 3 ↔ i < j ∧ j < 3)) ∧
    (⟨"a", 1, ⟨0, 0, 0⟩, 0, 0⟩ : CelestialBody).mass •
        ((computeGravitationalForce id ⟨"a", 1, ⟨0, 0, 0⟩, 0, 0⟩
            ⟨"b", 1, ⟨2, 0, 0⟩, 0, 0⟩).1.acceleration -
          (⟨"a", 1, ⟨0, 0, 0⟩, 0, 0⟩ : CelestialBody).acceleration)
      = -((⟨"b", 1, ⟨2, 0, 0⟩, 0, 0⟩ : CelestialBody).mass •
          ((computeGravitationalForce id ⟨"a", 1, ⟨0, 0, 0⟩, 0, 0⟩
              ⟨"b", 1, ⟨2, 0, 0⟩, 0, 0⟩).2.acceleration -
            (⟨"b", 1, ⟨2, 0, 0⟩, 0, 0⟩ : CelestialBody).acceleration)) ∧
    (⟨"a", 1, ⟨0, 0, 0⟩, 0, 0⟩ : CelestialBody).mass •
        ((updateAccelerations id
            [⟨"a", 1, ⟨0, 0, 0⟩, 0, 0⟩, ⟨"b", 1, ⟨2, 0, 0⟩, 0, 0⟩]).getD 0
          dummyBody).acceleration
      = -((⟨"b", 1, ⟨2, 0, 0⟩, 0, 0⟩ : CelestialBody).mass •
          ((updateAccelerations id
              [⟨"a", 1, ⟨0, 0, 0⟩, 0, 0⟩, ⟨"b", 1, ⟨2, 0, 0⟩, 0, 0⟩]).getD 1
            dummyBody).acceleration) :=
  force_loop_newton_third_law id 3 ⟨"a", 1, ⟨0, 0, 0⟩, 0, 0⟩
    ⟨"b", 1, ⟨2, 0, 0⟩, 0, 0⟩
    (by norm_num [vec3.length_squared])

@[ext] theorem CelestialBody.ext_body {b₁ b₂ : CelestialBody}
    (h1 : b₁.name = b₂.name) (h2 : b₁.mass = b₂.mass)
    (h3 : b₁.position = b₂.position) (h4 : b₁.velocity = b₂.velocity)
    (h5 : b₁.acceleration = b₂.acceleration) : b₁ = b₂ := by
  cases b₁; cases b₂; simp_all

/-- C6 counterexample: stage evaluation does mutate the caller's collection.
`evaluateDerivatives(bodies)` (stage `k1` of `rk4Step`) overwrites the
acceleration field of the caller's body, so the collection that reaches the
final combination differs from the original. -/
theorem stage_eval_mutates_acceleration :
    (evaluateDerivatives id
        [⟨"probe", 1, ⟨0, 0, 0⟩, ⟨0, 0, 0⟩, ⟨1, 1, 1⟩⟩]).1
      ≠ [⟨"probe", 1, ⟨0, 0, 0⟩, ⟨0, 0, 0⟩, ⟨1, 1, 1⟩⟩] := by
  have h1 : (evaluateDerivatives id
      [⟨"probe", 1, ⟨0, 0, 0⟩, ⟨0, 0, 0⟩, ⟨1, 1, 1⟩⟩]).1
      = [⟨"probe", 1, ⟨0, 0, 0⟩, ⟨0, 0, 0⟩, ⟨0, 0, 0⟩⟩] := rfl
  rw [h1]
  intro hEq
  have hx := congrArg
    (fun l : List CelestialBody => (l.getD 0 dummyBody).acceleration.x) hEq
  norm_num [List.getD_cons_zero] at hx

/-- C6 (amended): the stage evaluations of `rk4Step` never change any body's
name, mass, position, or velocity — only the transient acceleration field is
overwritten, by the stage-1 force pass — and the final positions and
velocities are exactly those obtained by running the final combination loop
on the caller's original collection with the four stage derivatives. -/
theorem rk4_stages_preserve_state (sq : ℚ → ℚ)
    (bodies : List CelestialBody) (dt : ℚ) :
    (evaluateDerivatives sq bodies).1.map toPV = bodies.map toPV ∧
    (rk4Step sq bodies dt).map toPV
      = (rk4Combine (dt / 6) bodies (rk4K1 sq bodies) (rk4K2 sq bodies dt)
          (rk4K3 sq bodies dt) (rk4K4 sq bodies dt)).map toPV := by
  refine ⟨evalDerivs_fst_pv sq bodies, ?_⟩
  by_cases hb : bodies = []
  · subst hb; rfl
  · rw [rk4Step_eq_combine sq bodies dt (List.isEmpty_eq_false.mpr hb)]
    rw [rk4Combine_pv (dt / 6) (rk4B1 sq bodies) (rk4K1 sq bodies)
      (rk4K2 sq bodies dt) (rk4K3 sq bodies dt) (rk4K4 sq bodies dt)
      (by rw [rk4K1_length, rk4B1_length])
      (by rw [rk4K2_length, rk4B1_length])
      (by rw [rk4K3_length, rk4B1_length])
      (by rw [rk4K4_length, rk4B1_length])]
    rw [rk4Combine_pv (dt / 6) bodies (rk4K1 sq bodies)
      (rk4K2 sq bodies dt) (rk4K3 sq bodies dt) (rk4K4 sq bodies dt)
      (rk4K1_length sq bodies) (rk4K2_length sq bodies dt)
      (rk4K3_length sq bodies dt) (rk4K4_length sq bodies dt)]
    rw [rk4B1_pv]

/-- C10: on a single-body collection `rk4Step` produces exact uniform linear
motion: position advances by `dt` times the initial velocity, the velocity
is unchanged, and the acceleration is zeroed (no pair to iterate). -/
theorem rk4Step_singleton_uniform_motion (sq : ℚ → ℚ) (b : CelestialBody)
    (dt : ℚ) :
    rk4Step sq [b] dt =
      [{ b with position := b.position + dt • b.velocity,
                acceleration := 0 }] := by
  have hev : ∀ c : CelestialBody, evaluateDerivatives sq [c]
      = ([{ c with acceleration := 0 }], [⟨c.velocity, (0 : vec3)⟩]) :=
    fun c => rfl
  have hbuild : ∀ (c : CelestialBody) (d : StateDerivative) (s : ℚ),
      buildIntermediateState [c] [d] s
        = [{ c with position := c.position + s • d.dpos,
                    velocity := c.velocity + s • d.dvel }] :=
    fun c d s => rfl
  have hB1 : rk4B1 sq [b] = [{ b with acceleration := 0 }] := by
    unfold rk4B1; rw [hev b]
  have hK1 : rk4K1 sq [b] = [⟨b.velocity, (0 : vec3)⟩] := by
    unfold rk4K1; rw [hev b]
  have hS2 : rk4S2 sq [b] dt
      = [{ b with position := b.position + (dt * (1 / 2)) • b.velocity,
                  velocity := b.velocity + (dt * (1 / 2)) • (0 : vec3),
                  acceleration := 0 }] := by
    unfold rk4S2
    rw [hB1, hK1, hbuild]
  have hK2 : rk4K2 sq [b] dt
      = [⟨b.velocity + (dt * (1 / 2)) • (0 : vec3), (0 : vec3)⟩] := by
    unfold rk4K2
    rw [hS2, hev]
  have hS3 : rk4S3 sq [b] dt
      = [{ b with
            position := b.position +
              (dt * (1 / 2)) • (b.velocity + (dt * (1 / 2)) • (0 : vec3)),
            velocity := b.velocity + (dt * (1 / 2)) • (0 : vec3),
            acceleration := 0 }] := by
    unfold rk4S3
    rw [hB1, hK2, hbuild]
  have hK3 : rk4K3 sq [b] dt
      = [⟨b.velocity + (dt * (1 / 2)) • (0 : vec3), (0 : vec3)⟩] := by
    unfold rk4K3
    rw [hS3, hev]
  have hS4 : rk4S4 sq [b] dt
      = [{ b with
            position := b.position +
              dt • (b.velocity + (dt * (1 / 2)) • (0 : vec3)),
            velocity := b.velocity + dt • (0 : vec3),
            acceleration := 0 }] := by
    unfold rk4S4
    rw [hB1, hK3, hbuild]
  have hK4 : rk4K4 sq [b] dt
      = [⟨b.velocity + dt • (0 : vec3), (0 : vec3)⟩] := by
    unfold rk4K4
    rw [hS4, hev]
  rw [rk4Step_eq_combine sq [b] dt rfl, hB1, hK1, hK2, hK3, hK4]
  simp only [rk4Combine, List.cons.injEq, and_true]
  ext <;> simp <;> ring
